import Mathlib

/-!
Shallow embedding of the library-management business logic
(`services/library_service.py`) together with an in-memory model of the
persistence collaborator (`database`, specified in §6 of the design spec).

Dates are modelled at calendar-day granularity (`DateTime := Int`, the day
number), which is the granularity actually used by the fee computation
(`(comparison_date.date() - due_date.date()).days`). Monetary amounts are
modelled as exact rationals; all fee values produced by the schedule are
multiples of $0.50 and hence exactly representable both as floats and here.
Stored date fields are modelled as the *result* of the source's `parse_date`
helper: `none` exactly when the stored value is absent or unparsable.
-/

namespace LibSys

/-- Calendar day number; addition of `n` days is integer addition. -/
abbrev DateTime := Int

/-- A catalog book row (table `books`). -/
structure Book where
  id : Nat
  title : String
  author : String
  isbn : String
  total_copies : Int
  available_copies : Int
  deriving Repr, DecidableEq

/-- A `borrow_records` row; the three date fields hold the result of the
source's `parse_date` (`none` = NULL or unparsable text). -/
structure BorrowRecord where
  id : Nat
  patron_id : String
  book_id : Nat
  borrow_date : Option DateTime
  due_date : Option DateTime
  return_date : Option DateTime
  deriving Repr, DecidableEq

/-- In-memory model of the SQLite database owned by the persistence layer. -/
structure Store where
  books : List Book
  records : List BorrowRecord
  next_book_id : Nat
  next_record_id : Nat
  deriving Repr, DecidableEq

/-! ## Python string helpers -/

/-- Python `str.strip()`: drop whitespace from both ends. -/
def pythonStrip (s : String) : String :=
  ⟨((s.data.dropWhile Char.isWhitespace).reverse.dropWhile Char.isWhitespace).reverse⟩

/-- Python `str.lower()` (ASCII case folding suffices for this code base). -/
def pythonLower (s : String) : String :=
  ⟨s.data.map Char.toLower⟩

/-- Python `str.isdigit()`: non-empty and all digit characters. -/
def pythonIsDigit (s : String) : Bool :=
  !s.isEmpty && s.data.all Char.isDigit

/-- The patron-id rejection test used verbatim at the top of the service
functions: `not patron_id or not patron_id.isdigit() or len(patron_id) != 6`. -/
def patronIdInvalid (pid : String) : Bool :=
  pid.isEmpty || !pythonIsDigit pid || pid.length != 6

/-- `needle` is a leading segment of `hay` (Python slice comparison). -/
def leadsList (needle hay : List Char) : Bool :=
  match needle, hay with
  | [], _ => true
  | _ :: _, [] => false
  | a :: as, b :: bs => a == b && leadsList as bs

/-- Python substring test `needle in hay` over character lists. -/
def containsSub (needle : List Char) : List Char → Bool
  | [] => needle.isEmpty
  | c :: rest => leadsList needle (c :: rest) || containsSub needle rest

/-! ## Rounding

Python `round(x, 2)` rounds to two decimal places with ties to even.
All fee amounts in this code are multiples of 0.5, for which float
arithmetic and the rounding below are both exact. -/

/-- Floor of a rational (denominator is always positive, so Euclidean
division of the numerator is floor division). -/
def ratFloor (q : Rat) : Int := Int.ediv q.num (q.den : Int)

/-- Round a rational to the nearest integer, ties to even (Python `round`). -/
def roundHalfEven (q : Rat) : Int :=
  let f := ratFloor q
  let frac := q - (f : Rat)
  if frac < 1/2 then f
  else if 1/2 < frac then f + 1
  else if f % 2 = 0 then f else f + 1

/-- Python `round(q, 2)`. -/
def round2 (q : Rat) : Rat := (roundHalfEven (q * 100) : Rat) / 100

/-! ## Persistence collaborator (database module, spec §6) -/

/-- Modelled from the spec: Book Store `getById(id)` — fetch a book row by
primary key. -/
def get_book_by_id (st : Store) (book_id : Nat) : Option Book :=
  st.books.find? (fun b => b.id == book_id)

/-- Modelled from the spec: Book Store `getByIsbn(isbn)`. -/
def get_book_by_isbn (st : Store) (isbn : String) : Option Book :=
  st.books.find? (fun b => b.isbn == isbn)

/-- Modelled from the spec: Book Store
`insert(title, author, isbn, total, available) -> bool`; appends a fresh row. -/
def insert_book (st : Store) (title author isbn : String)
    (total available : Int) : Store × Bool :=
  ({ st with
      books := st.books ++
        [⟨st.next_book_id, title, author, isbn, total, available⟩],
      next_book_id := st.next_book_id + 1 }, true)

/-- Modelled from the spec: Book Store `updateAvailability(id, delta) -> bool`;
adds `delta` to the row's `available_copies`, failing when the book is absent. -/
def update_book_availability (st : Store) (book_id : Nat) (delta : Int) :
    Store × Bool :=
  if st.books.any (fun b => b.id == book_id) then
    ({ st with
        books := st.books.map (fun b =>
          if b.id == book_id then
            { b with available_copies := b.available_copies + delta }
          else b) }, true)
  else (st, false)

/-- Modelled from the spec: Borrow Record Store
`countActiveForPatron(patronId) -> int` — number of records with NULL
`return_date` for the patron. -/
def get_patron_borrow_count (st : Store) (pid : String) : Nat :=
  (st.records.filter
    (fun r => r.patron_id == pid && r.return_date.isNone)).length

/-- Modelled from the spec: Borrow Record Store
`activeRecordsForPatron(patronId)` joined with the book row (the rows carry
`title`/`author` used by the status report). -/
def get_patron_borrowed_books (st : Store) (pid : String) :
    List (BorrowRecord × Book) :=
  (st.records.filter (fun r => r.patron_id == pid && r.return_date.isNone)
    ).filterMap (fun r =>
      (st.books.find? (fun b => b.id == r.book_id)).map (fun b => (r, b)))

/-- Modelled from the spec: Borrow Record Store
`insert(patronId, bookId, borrowDate, dueDate) -> bool`. -/
def insert_borrow_record (st : Store) (pid : String) (book_id : Nat)
    (borrow_date due_date : DateTime) : Store × Bool :=
  ({ st with
      records := st.records ++
        [⟨st.next_record_id, pid, book_id, some borrow_date, some due_date,
          none⟩],
      next_record_id := st.next_record_id + 1 }, true)

/-- Modelled from the spec: Borrow Record Store
`setReturnDate(patronId, bookId, date) -> bool`; stamps the active records
matching the pair, failing when there is none. -/
def update_borrow_record_return_date (st : Store) (pid : String)
    (book_id : Nat) (date : DateTime) : Store × Bool :=
  if st.records.any (fun r =>
      r.patron_id == pid && r.book_id == book_id && r.return_date.isNone) then
    ({ st with
        records := st.records.map (fun r =>
          if r.patron_id == pid && r.book_id == book_id &&
              r.return_date.isNone then
            { r with return_date := some date }
          else r) }, true)
  else (st, false)

/-- The inline SQL of `calculate_late_fee_for_book` (lines 171-177):
latest `borrow_records` row for the pair, `ORDER BY id DESC LIMIT 1`. -/
def mostRecentRecord (st : Store) (pid : String) (book_id : Nat) :
    Option BorrowRecord :=
  (st.records.filter (fun r => r.patron_id == pid && r.book_id == book_id)
    ).foldl (fun acc r =>
      match acc with
      | none => some r
      | some a => if a.id ≤ r.id then some r else some a) none

/-! ## Fee calculator (`calculate_late_fee_for_book`, lines 149-228) -/

/-- Result dict of the fee calculator. -/
structure FeeResult where
  fee_amount : Rat
  days_overdue : Int
  status : String
  deriving Repr, DecidableEq

/-- The tiered fee of lines 216-222: $0.50/day for the first seven overdue
days, $1.00/day beyond, capped at $15.00; zero when not overdue. -/
def feeFromDaysOverdue (days_overdue : Int) : Rat :=
  if 0 < days_overdue then
    let first_seven_days := min days_overdue 7
    let after_seven_days := max 0 (days_overdue - 7)
    let fee : Rat := (first_seven_days : Rat) * (1/2) +
      (after_seven_days : Rat) * 1
    if 15 < fee then 15 else fee
  else 0

/-- Lines 213-228: days overdue from the effective due date and comparison
date, then the rounded fee and status. -/
def feeResultFromDue (due comparison : DateTime) : FeeResult :=
  let days_overdue := max 0 (comparison - due)
  { fee_amount := round2 (feeFromDaysOverdue days_overdue)
    days_overdue := days_overdue
    status := if 0 < days_overdue then "Overdue" else "On time" }

/-- Lines 205-206: an unparsable `due_date` is backfilled from a parsable
`borrow_date` as `borrow_date + 14` days. -/
def effectiveDueDate (row : BorrowRecord) : Option DateTime :=
  match row.due_date, row.borrow_date with
  | none, some b => some (b + 14)
  | d, _ => d

/-- `calculate_late_fee_for_book(patron_id, book_id)`; `now` is the value of
`datetime.now()` during the call. -/
def calculate_late_fee_for_book (patron_id : String) (book_id : Nat)
    (now : DateTime) (st : Store) : FeeResult :=
  if patronIdInvalid patron_id then
    ⟨0, 0, "Invalid patron ID"⟩
  else
    match mostRecentRecord st patron_id book_id with
    | none => ⟨0, 0, "No borrow record"⟩
    | some row =>
      let comparison_date := row.return_date.getD now
      match effectiveDueDate row with
      | none => ⟨0, 0, "No due date"⟩
      | some due => feeResultFromDue due comparison_date

/-! ## Catalog manager (`add_book_to_catalog`, lines 18-61) -/

/-- `add_book_to_catalog(title, author, isbn, total_copies)`; returns the
`(success, message)` pair together with the store after the call. -/
def add_book_to_catalog (title author isbn : String) (total_copies : Int)
    (st : Store) : (Bool × String) × Store :=
  if title.isEmpty || (pythonStrip title).isEmpty then
    ((false, "Title is required."), st)
  else if 200 < (pythonStrip title).length then
    ((false, "Title must be less than 200 characters."), st)
  else if author.isEmpty || (pythonStrip author).isEmpty then
    ((false, "Author is required."), st)
  else if 100 < (pythonStrip author).length then
    ((false, "Author must be less than 100 characters."), st)
  else if isbn.length != 13 then
    ((false, "ISBN must be exactly 13 digits."), st)
  else if total_copies ≤ 0 then
    ((false, "Total copies must be a positive integer."), st)
  else if (get_book_by_isbn st isbn).isSome then
    ((false, "A book with this ISBN already exists."), st)
  else
    let (st1, success) :=
      insert_book st (pythonStrip title) (pythonStrip author) isbn
        total_copies total_copies
    if success then
      ((true, "Book \"" ++ pythonStrip title ++
        "\" has been successfully added to the catalog."), st1)
    else
      ((false, "Database error occurred while adding the book."), st1)

/-! ## Borrowing lifecycle (`borrow_book_by_patron`, lines 63-106, and
`return_book_by_patron`, lines 108-147) -/

/-- `borrow_book_by_patron(patron_id, book_id)` with `now` the call's
`datetime.now()`. -/
def borrow_book_by_patron (patron_id : String) (book_id : Nat)
    (now : DateTime) (st : Store) : (Bool × String) × Store :=
  if patronIdInvalid patron_id then
    ((false, "Invalid patron ID. Must be exactly 6 digits."), st)
  else
    match get_book_by_id st book_id with
    | none => ((false, "Book not found."), st)
    | some book =>
      if book.available_copies ≤ 0 then
        ((false, "This book is currently not available."), st)
      else
        let current_borrowed := get_patron_borrow_count st patron_id
        if 5 < current_borrowed then
          ((false, "You have reached the maximum borrowing limit of 5 books."),
            st)
        else
          let borrow_date := now
          let due_date := borrow_date + 14
          let (st1, borrow_success) :=
            insert_borrow_record st patron_id book_id borrow_date due_date
          if !borrow_success then
            ((false, "Database error occurred while creating borrow record."),
              st1)
          else
            let (st2, availability_success) :=
              update_book_availability st1 book_id (-1)
            if !availability_success then
              ((false,
                "Database error occurred while updating book availability."),
                st2)
            else
              ((true, "Successfully borrowed \"" ++ book.title ++
                "\". Due date: " ++ toString due_date ++ "."), st2)

/-- `return_book_by_patron(patron_id, book_id)` with `now` the call's
`datetime.now()`. -/
def return_book_by_patron (patron_id : String) (book_id : Nat)
    (now : DateTime) (st : Store) : (Bool × String) × Store :=
  if patronIdInvalid patron_id then
    ((false, "Invalid patron ID. Must be exactly 6 digits."), st)
  else
    match get_book_by_id st book_id with
    | none => ((false, "Book not found."), st)
    | some _ =>
      let active_borrows := get_patron_borrowed_books st patron_id
      let matching := active_borrows.filter (fun rb => rb.1.book_id == book_id)
      if matching.isEmpty then
        ((false, "Book not borrowed by patron"), st)
      else
        let (st1, success) :=
          update_borrow_record_return_date st patron_id book_id now
        if !success then
          ((false, "Could not record return"), st1)
        else
          let (st2, ok) := update_book_availability st1 book_id 1
          if !ok then
            ((false, "Could not update availability"), st2)
          else
            let fee_info := calculate_late_fee_for_book patron_id book_id now st2
            if 0 < fee_info.fee_amount then
              ((true, "Returned successfully. Late fee: $" ++
                toString fee_info.fee_amount), st2)
            else
              ((true, "Returned successfully"), st2)

/-! ## Search (`search_books_in_catalog`, lines 230-256)

The second component of the result counts the calls made to the book
store's `listAll` (`get_all_books`), so that "no store call" is provable. -/

/-- `search_books_in_catalog(search_term, search_type)`; `none` models a
`None` search term. -/
def search_books_in_catalog (search_term : Option String)
    (search_type : String) (st : Store) : List Book × Nat :=
  match search_term with
  | none => ([], 0)
  | some t =>
    let search := pythonStrip t
    if search.isEmpty then ([], 0)
    else
      let books := st.books
      let search_lower := pythonLower search
      if search_type == "isbn" then
        (books.filter (fun b => b.isbn == search), 1)
      else if search_type == "title" then
        (books.filter (fun b =>
          containsSub search_lower.data (pythonLower b.title).data), 1)
      else if search_type == "author" then
        (books.filter (fun b =>
          containsSub search_lower.data (pythonLower b.author).data), 1)
      else
        (books.filter (fun b =>
          containsSub search_lower.data (pythonLower b.title).data ||
          containsSub search_lower.data (pythonLower b.author).data), 1)

/-! ## Payment orchestrator (`pay_late_fees`, lines 323-385, and
`refund_late_fee_payment`, lines 388-427)

A gateway method either returns a value or raises an exception; `Except`
models the raise. Each orchestrator result carries the number of gateway
invocations made during the call, so "invoked at most once" is provable.
The `try`/`except` of the source is the `Except.error` branch of the match:
a raised exception is converted into a `(False, message, ...)` result and
never leaves the function. -/

/-- External payment gateway collaborator (spec §6): both methods may raise,
modelled by `Except.error` carrying `str(e)`. -/
structure PaymentGateway where
  process_payment : String → Rat → String → Except String (Bool × Option String × String)
  refund_payment : String → Rat → Except String (Bool × String)

/-- `pay_late_fees(patron_id, book_id, payment_gateway)`; the `Nat` counts
gateway invocations. The source's guard for a fee dict lacking the
`fee_amount` key is unreachable here because `FeeResult` always carries it. -/
def pay_late_fees (patron_id : String) (book_id : Nat) (gw : PaymentGateway)
    (now : DateTime) (st : Store) : (Bool × String × Option String) × Nat :=
  if patronIdInvalid patron_id then
    ((false, "Invalid patron ID. Must be exactly 6 digits.", none), 0)
  else
    let fee_info := calculate_late_fee_for_book patron_id book_id now st
    let fee_amount := fee_info.fee_amount
    if fee_amount ≤ 0 then
      ((false, "No late fees to pay for this book.", none), 0)
    else
      match get_book_by_id st book_id with
      | none => ((false, "Book not found.", none), 0)
      | some book =>
        match gw.process_payment patron_id fee_amount
            ("Late fees for " ++ book.title) with
        | .ok (true, transaction_id, message) =>
          ((true, "Payment successful! " ++ message, transaction_id), 1)
        | .ok (false, _, message) =>
          ((false, "Payment failed: " ++ message, none), 1)
        | .error e =>
          ((false, "Payment processing error: " ++ e, none), 1)

/-- `refund_late_fee_payment(transaction_id, amount, payment_gateway)`; the
`Nat` counts gateway invocations. -/
def refund_late_fee_payment (transaction_id : String) (amount : Rat)
    (gw : PaymentGateway) : (Bool × String) × Nat :=
  if transaction_id.isEmpty || !transaction_id.startsWith "txn_" then
    ((false, "Invalid transaction ID."), 0)
  else if amount ≤ 0 then
    ((false, "Refund amount must be greater than 0."), 0)
  else if 15 < amount then
    ((false, "Refund amount exceeds maximum late fee."), 0)
  else
    match gw.refund_payment transaction_id amount with
    | .ok (true, message) => ((true, message), 1)
    | .ok (false, message) => ((false, "Refund failed: " ++ message), 1)
    | .error e => ((false, "Refund processing error: " ++ e), 1)

/-! ## Status reporter (`get_patron_status_report`, lines 258-321)

The history rows are built through a Python dict literal that spells the
key `borrow_date` three times (lines 307-309); Python evaluates every
value but later duplicate keys overwrite earlier ones, so the dict is
modelled by folding insert-or-overwrite over the written pairs. -/

/-- A value stored in a history dict row: ints, strings, or (possibly null)
parsed datetimes. -/
inductive PyVal where
  | int : Int → PyVal
  | str : String → PyVal
  | date : Option DateTime → PyVal
  deriving Repr, DecidableEq

/-- Insert-or-overwrite one key of a Python dict (keys keep first-occurrence
order; a duplicate key overwrites the stored value in place). -/
def dictInsert (d : List (String × PyVal)) (k : String) (v : PyVal) :
    List (String × PyVal) :=
  if d.any (fun p => p.1 == k) then
    d.map (fun p => if p.1 == k then (k, v) else p)
  else d ++ [(k, v)]

/-- Evaluate a Python dict literal: fold the written pairs left to right. -/
def mkDict (pairs : List (String × PyVal)) : List (String × PyVal) :=
  pairs.foldl (fun d p => dictInsert d p.1 p.2) []

/-- Python `d.get(k)` on a dict modelled as an association list. -/
def dictGet (d : List (String × PyVal)) (k : String) : Option PyVal :=
  (d.find? (fun p => p.1 == k)).map (fun p => p.2)

/-- The dict literal of lines 302-310 for one joined history row: the key
`'borrow_date'` is written three times, with the record's borrow, due and
return dates in turn. -/
def historyEntry (r : BorrowRecord) (b : Book) : List (String × PyVal) :=
  mkDict [("record_id", .int r.id), ("book_id", .int r.book_id),
    ("title", .str b.title), ("author", .str b.author),
    ("borrow_date", .date r.borrow_date),
    ("borrow_date", .date r.due_date),
    ("borrow_date", .date r.return_date)]

/-- Insert one row into a list kept in descending `return_date` order
(the SQL `ORDER BY br.return_date DESC` of lines 293-299). -/
def insertByReturnDesc (x : BorrowRecord × Book) :
    List (BorrowRecord × Book) → List (BorrowRecord × Book)
  | [] => [x]
  | y :: ys =>
    if (y.1.return_date.getD 0) ≤ (x.1.return_date.getD 0) then
      x :: y :: ys
    else y :: insertByReturnDesc x ys

/-- The history query of lines 293-299: returned records of the patron
joined with their book, descending by return date. -/
def returnedHistoryForPatron (st : Store) (pid : String) :
    List (BorrowRecord × Book) :=
  ((st.records.filter (fun r => r.patron_id == pid && r.return_date.isSome)
    ).filterMap (fun r =>
      (st.books.find? (fun b => b.id == r.book_id)).map (fun b => (r, b)))
    ).foldr insertByReturnDesc []

/-- One active-borrow detail row of the report (lines 278-286). -/
structure ActiveBookRow where
  book_id : Nat
  title : String
  author : String
  borrow_date : Option DateTime
  due_date : Option DateTime
  days_overdue : Int
  current_fee : Rat
  deriving Repr, DecidableEq

/-- The report returned for a valid patron id (lines 315-321). -/
structure PatronReport where
  patron_id : String
  borrowed_books : List ActiveBookRow
  number_borrowed_books : Nat
  total_late_fees : Rat
  borrow_history : List (List (String × PyVal))
  deriving Repr, DecidableEq

/-- `get_patron_status_report(patron_id)`; an invalid id yields `none`
(the empty dict of line 266). -/
def get_patron_status_report (patron_id : String) (now : DateTime)
    (st : Store) : Option PatronReport :=
  if patronIdInvalid patron_id then none
  else
    let active_borrow := get_patron_borrowed_books st patron_id
    let borrowed_books := active_borrow.map (fun rb =>
      let fee_info := calculate_late_fee_for_book patron_id rb.1.book_id now st
      { book_id := rb.1.book_id
        title := rb.2.title
        author := rb.2.author
        borrow_date := rb.1.borrow_date
        due_date := rb.1.due_date
        days_overdue := fee_info.days_overdue
        current_fee := fee_info.fee_amount : ActiveBookRow })
    let total_fees := (active_borrow.map (fun rb =>
      (calculate_late_fee_for_book patron_id rb.1.book_id now st).fee_amount
      )).foldl (· + ·) 0
    let history := (returnedHistoryForPatron st patron_id).map
      (fun rb => historyEntry rb.1 rb.2)
    some { patron_id := patron_id
           borrowed_books := borrowed_books
           number_borrowed_books := borrowed_books.length
           total_late_fees := round2 total_fees
           borrow_history := history }

/-! ## Concrete fixtures used to instantiate the theorems -/

/-- An empty database. -/
def stEmpty : Store := ⟨[], [], 1, 1⟩

/-- A catalog book used by several fixtures. -/
def bookDune : Book := ⟨1, "Dune", "Herbert", "1234567890123", 3, 2⟩

/-- A record borrowed on day 0, due day 5, returned day 15 (ten days late). -/
def recTenLate : BorrowRecord := ⟨1, "123456", 1, some 0, some 5, some 15⟩

/-- Store holding `bookDune` and `recTenLate`. -/
def stTenLate : Store := ⟨[bookDune], [recTenLate], 2, 2⟩

/-- An active record for patron 123456; `i` is the record id and the book. -/
def activeRec (i : Nat) : BorrowRecord :=
  ⟨i, "123456", 100 + i, some 0, some 14, none⟩

/-- Store where patron 123456 already has five active borrows and `bookDune`
is on the shelf. -/
def stFiveActive : Store :=
  ⟨[bookDune], [activeRec 1, activeRec 2, activeRec 3, activeRec 4,
    activeRec 5], 2, 6⟩

/-- A record already returned (day 20) by patron 123456 for book 1. -/
def recReturned : BorrowRecord := ⟨1, "123456", 1, some 0, some 14, some 20⟩

/-- Store where the only record of patron 123456 for book 1 is returned. -/
def stReturned : Store := ⟨[bookDune], [recReturned], 2, 2⟩

/-- A record whose stored due date failed to parse but whose borrow date
parsed (day 0); returned on day 20. -/
def recNoDue : BorrowRecord := ⟨1, "123456", 1, some 0, none, some 20⟩

/-- Store holding `recNoDue`. -/
def stNoDue : Store := ⟨[bookDune], [recNoDue], 2, 2⟩

/-- A record where both the borrow and the due date failed to parse. -/
def recNoDates : BorrowRecord := ⟨1, "123456", 1, none, none, none⟩

/-- Store holding `recNoDates`. -/
def stNoDates : Store := ⟨[bookDune], [recNoDates], 2, 2⟩

/-- A second catalog book for the search fixtures. -/
def bookLeaf : Book := ⟨2, "Leaf by Niggle", "Tolkien", "9876543210123", 1, 1⟩

/-- Two-book catalog for the search fixtures. -/
def stTwoBooks : Store := ⟨[bookDune, bookLeaf], [], 3, 1⟩

/-- A gateway whose every call raises (transport failure). -/
def gwRaises : PaymentGateway :=
  ⟨fun _ _ _ => .error "boom", fun _ _ => .error "boom"⟩

/-- The status report the reporter computes over `stReturned`. -/
def repReturned : PatronReport :=
  ⟨"123456", [], 0, round2 0, [historyEntry recReturned bookDune]⟩

/-! ## Helper lemmas: rounding -/

theorem ratFloor_intCast (m : Int) : ratFloor (m : Rat) = m := by
  unfold ratFloor
  rw [Rat.num_intCast, Rat.den_intCast]
  exact Int.ediv_one m

theorem roundHalfEven_intCast (m : Int) : roundHalfEven (m : Rat) = m := by
  simp only [roundHalfEven, ratFloor_intCast, sub_self]
  norm_num

theorem round2_int_div_two (k : Int) : round2 ((k : Rat) / 2) = (k : Rat) / 2 := by
  unfold round2
  have h : ((k : Rat) / 2) * 100 = ((50 * k : Int) : Rat) := by push_cast; ring
  rw [h, roundHalfEven_intCast]
  push_cast
  ring

theorem round2_intCast (m : Int) : round2 (m : Rat) = m := by
  have h : (((2 * m : Int)) : Rat) / 2 = (m : Rat) := by push_cast; ring
  rw [← h, round2_int_div_two]

theorem round2_mul_100_den (q : Rat) : (round2 q * 100).den = 1 := by
  have h : round2 q * 100 = ((roundHalfEven (q * 100) : Int) : Rat) := by
    unfold round2
    field_simp
  rw [h, Rat.den_intCast]

/-! ## Helper lemmas: the fee schedule -/

theorem feeFrom_nonpos (d : Int) (h : d ≤ 0) : feeFromDaysOverdue d = 0 := by
  simp only [feeFromDaysOverdue]
  rw [if_neg (by omega)]

theorem feeFrom_le7 (d : Int) (h1 : 1 ≤ d) (h2 : d ≤ 7) :
    feeFromDaysOverdue d = (d : Rat) * (1/2) := by
  have hd : (0:Int) < d := by omega
  have hmin : min d 7 = d := by omega
  have hmax : max 0 (d - 7) = 0 := by omega
  have hcast : ((d : Int) : Rat) ≤ 7 := by exact_mod_cast h2
  simp only [feeFromDaysOverdue, hmin, hmax, if_pos hd]
  rw [if_neg (by push_cast; linarith)]
  push_cast
  ring

theorem feeFrom_gt7 (d : Int) (h : 7 < d) :
    feeFromDaysOverdue d = min 15 ((3.5 : Rat) + ((d : Rat) - 7) * 1) := by
  have hd : (0:Int) < d := by omega
  have hmin : min d 7 = 7 := by omega
  have hmax : max 0 (d - 7) = d - 7 := by omega
  simp only [feeFromDaysOverdue, hmin, hmax, if_pos hd]
  have hxy : ((7 : Int) : Rat) * (1/2) + ((d - 7 : Int) : Rat) * 1 =
      (3.5 : Rat) + ((d : Rat) - 7) * 1 := by push_cast; norm_num
  rw [hxy]
  by_cases hc : (15 : Rat) < (3.5 : Rat) + ((d : Rat) - 7) * 1
  · rw [if_pos hc, min_eq_left (le_of_lt hc)]
  · rw [if_neg hc, min_eq_right (not_lt.mp hc)]

theorem feeFrom_pos (d : Int) (h : 0 < d) : 0 < feeFromDaysOverdue d := by
  simp only [feeFromDaysOverdue, if_pos h]
  split
  · norm_num
  · have h1 : (1:Int) ≤ min d 7 := by omega
    have h2 : (0:Int) ≤ max 0 (d - 7) := by omega
    have c1 : (1:Rat) ≤ ((min d 7 : Int) : Rat) := by exact_mod_cast h1
    have c2 : (0:Rat) ≤ ((max 0 (d - 7) : Int) : Rat) := by exact_mod_cast h2
    nlinarith

theorem feeFrom_nonneg (d : Int) : 0 ≤ feeFromDaysOverdue d := by
  rcases le_or_lt d 0 with h | h
  · rw [feeFrom_nonpos d h]
  · exact le_of_lt (feeFrom_pos d h)

theorem feeFrom_le15 (d : Int) : feeFromDaysOverdue d ≤ 15 := by
  simp only [feeFromDaysOverdue]
  split
  · split
    · exact le_refl _
    · next hno => exact le_of_not_lt hno
  · norm_num

theorem feeFrom_exists_half (d : Int) :
    ∃ k : Int, feeFromDaysOverdue d = (k : Rat) / 2 := by
  simp only [feeFromDaysOverdue]
  split
  · split
    · exact ⟨30, by norm_num⟩
    · exact ⟨min d 7 + 2 * max 0 (d - 7), by push_cast; ring⟩
  · exact ⟨0, by norm_num⟩

theorem round2_feeFrom (d : Int) :
    round2 (feeFromDaysOverdue d) = feeFromDaysOverdue d := by
  obtain ⟨k, hk⟩ := feeFrom_exists_half d
  rw [hk, round2_int_div_two]

theorem feeFrom_mul_100_den (d : Int) :
    (feeFromDaysOverdue d * 100).den = 1 := by
  obtain ⟨k, hk⟩ := feeFrom_exists_half d
  have h : ((k : Rat) / 2) * 100 = ((50 * k : Int) : Rat) := by push_cast; ring
  rw [hk, h, Rat.den_intCast]

theorem feeResultFromDue_days (due comparison : DateTime) :
    (feeResultFromDue due comparison).days_overdue = max 0 (comparison - due) :=
  rfl

theorem feeResultFromDue_fee (due comparison : DateTime) :
    (feeResultFromDue due comparison).fee_amount =
      feeFromDaysOverdue (max 0 (comparison - due)) := by
  simp only [feeResultFromDue]
  exact round2_feeFrom _

theorem feeResultFromDue_status (due comparison : DateTime) :
    (feeResultFromDue due comparison).status =
      if 0 < max 0 (comparison - due) then "Overdue" else "On time" :=
  rfl

/-! ## Helper lemmas: branch equations of the fee calculator -/

theorem calculate_fee_invalid (pid : String) (bid : Nat) (now : DateTime)
    (st : Store) (h : patronIdInvalid pid = true) :
    calculate_late_fee_for_book pid bid now st =
      ⟨0, 0, "Invalid patron ID"⟩ := by
  simp [calculate_late_fee_for_book, h]

theorem calculate_fee_norec (pid : String) (bid : Nat) (now : DateTime)
    (st : Store) (hv : patronIdInvalid pid = false)
    (h : mostRecentRecord st pid bid = none) :
    calculate_late_fee_for_book pid bid now st =
      ⟨0, 0, "No borrow record"⟩ := by
  simp [calculate_late_fee_for_book, hv, h]

theorem calculate_fee_nodue (pid : String) (bid : Nat) (now : DateTime)
    (st : Store) (row : BorrowRecord) (hv : patronIdInvalid pid = false)
    (hrow : mostRecentRecord st pid bid = some row)
    (hd : effectiveDueDate row = none) :
    calculate_late_fee_for_book pid bid now st = ⟨0, 0, "No due date"⟩ := by
  simp [calculate_late_fee_for_book, hv, hrow, hd]

theorem calculate_fee_due (pid : String) (bid : Nat) (now : DateTime)
    (st : Store) (row : BorrowRecord) (due : DateTime)
    (hv : patronIdInvalid pid = false)
    (hrow : mostRecentRecord st pid bid = some row)
    (hd : effectiveDueDate row = some due) :
    calculate_late_fee_for_book pid bid now st =
      feeResultFromDue due (row.return_date.getD now) := by
  simp [calculate_late_fee_for_book, hv, hrow, hd]

/-! ## Claim theorems -/

/-- Claim C1: whenever the fee calculator reaches the schedule (valid patron
id, a latest borrow record, an effective due date), writing `d` for the
computed `days_overdue`: `d ≤ 0` gives fee 0 and status "On time";
`1 ≤ d ≤ 7` gives fee `d * 0.5` and status "Overdue"; `d > 7` gives fee
`min 15 (3.5 + (d - 7) * 1.0)` and status "Overdue"; and in every case the
returned fee is an exact multiple of 0.01 (two-decimal rounding). -/
theorem C1_fee_schedule (pid : String) (bid : Nat) (now : DateTime)
    (st : Store) (row : BorrowRecord) (due : DateTime)
    (hv : patronIdInvalid pid = false)
    (hrow : mostRecentRecord st pid bid = some row)
    (hd : effectiveDueDate row = some due) :
    ((calculate_late_fee_for_book pid bid now st).days_overdue ≤ 0 →
      (calculate_late_fee_for_book pid bid now st).fee_amount = 0 ∧
      (calculate_late_fee_for_book pid bid now st).status = "On time") ∧
    (1 ≤ (calculate_late_fee_for_book pid bid now st).days_overdue →
      (calculate_late_fee_for_book pid bid now st).days_overdue ≤ 7 →
      (calculate_late_fee_for_book pid bid now st).fee_amount =
        ((calculate_late_fee_for_book pid bid now st).days_overdue : Rat) *
          (1/2) ∧
      (calculate_late_fee_for_book pid bid now st).status = "Overdue") ∧
    (7 < (calculate_late_fee_for_book pid bid now st).days_overdue →
      (calculate_late_fee_for_book pid bid now st).fee_amount =
        min 15 ((3.5 : Rat) +
          (((calculate_late_fee_for_book pid bid now st).days_overdue : Rat)
            - 7) * 1) ∧
      (calculate_late_fee_for_book pid bid now st).status = "Overdue") ∧
    ((calculate_late_fee_for_book pid bid now st).fee_amount * 100).den = 1 := by
  have heq := calculate_fee_due pid bid now st row due hv hrow hd
  rw [heq, feeResultFromDue_fee, feeResultFromDue_days, feeResultFromDue_status]
  set d0 : Int := max 0 (row.return_date.getD now - due) with hd0
  have hnn : (0 : Int) ≤ d0 := le_max_left 0 _
  refine ⟨?_, ?_, ?_, feeFrom_mul_100_den d0⟩
  · intro hle
    have h0 : d0 = 0 := le_antisymm hle hnn
    rw [h0, feeFrom_nonpos 0 (le_refl 0)]
    exact ⟨rfl, by norm_num⟩
  · intro h1 h7
    refine ⟨feeFrom_le7 d0 h1 h7, ?_⟩
    rw [if_pos (by omega : (0:Int) < d0)]
  · intro h7
    refine ⟨feeFrom_gt7 d0 h7, ?_⟩
    rw [if_pos (by omega : (0:Int) < d0)]

/-- Witness for C1 on a record ten days overdue. -/
theorem C1_fee_schedule_witness :
    (patronIdInvalid "123456" = false ∧
      mostRecentRecord stTenLate "123456" 1 = some recTenLate ∧
      effectiveDueDate recTenLate = some 5) ∧
    (((calculate_late_fee_for_book "123456" 1 0 stTenLate).days_overdue ≤ 0 →
      (calculate_late_fee_for_book "123456" 1 0 stTenLate).fee_amount = 0 ∧
      (calculate_late_fee_for_book "123456" 1 0 stTenLate).status = "On time") ∧
    (1 ≤ (calculate_late_fee_for_book "123456" 1 0 stTenLate).days_overdue →
      (calculate_late_fee_for_book "123456" 1 0 stTenLate).days_overdue ≤ 7 →
      (calculate_late_fee_for_book "123456" 1 0 stTenLate).fee_amount =
        ((calculate_late_fee_for_book "123456" 1 0 stTenLate).days_overdue :
          Rat) * (1/2) ∧
      (calculate_late_fee_for_book "123456" 1 0 stTenLate).status =
        "Overdue") ∧
    (7 < (calculate_late_fee_for_book "123456" 1 0 stTenLate).days_overdue →
      (calculate_late_fee_for_book "123456" 1 0 stTenLate).fee_amount =
        min 15 ((3.5 : Rat) +
          (((calculate_late_fee_for_book "123456" 1 0 stTenLate).days_overdue :
            Rat) - 7) * 1) ∧
      (calculate_late_fee_for_book "123456" 1 0 stTenLate).status =
        "Overdue") ∧
    ((calculate_late_fee_for_book "123456" 1 0 stTenLate).fee_amount * 100).den
      = 1) :=
  ⟨⟨by decide, rfl, rfl⟩,
    C1_fee_schedule "123456" 1 0 stTenLate recTenLate 5 (by decide) rfl rfl⟩

/-- Claim C7: when the stored due date of the latest record failed to parse,
a parsable borrow date backfills the due date as `borrow_date + 14` days, and
when the borrow date is unparsable too the result is fee 0, days 0, status
"No due date". -/
theorem C7_due_backfill (pid : String) (bid : Nat) (now : DateTime)
    (st : Store) (row : BorrowRecord)
    (hv : patronIdInvalid pid = false)
    (hrow : mostRecentRecord st pid bid = some row)
    (hd : row.due_date = none) :
    (∀ b, row.borrow_date = some b →
      calculate_late_fee_for_book pid bid now st =
        feeResultFromDue (b + 14) (row.return_date.getD now)) ∧
    (row.borrow_date = none →
      calculate_late_fee_for_book pid bid now st =
        ⟨0, 0, "No due date"⟩) := by
  constructor
  · intro b hb
    have hdd : effectiveDueDate row = some (b + 14) := by
      simp [effectiveDueDate, hd, hb]
    exact calculate_fee_due pid bid now st row (b + 14) hv hrow hdd
  · intro hb
    have hdd : effectiveDueDate row = none := by
      simp [effectiveDueDate, hd, hb]
    exact calculate_fee_nodue pid bid now st row hv hrow hdd

/-- Witness for C7: one store whose record has a parsable borrow date only,
and one whose record has neither date. -/
theorem C7_due_backfill_witness :
    (patronIdInvalid "123456" = false ∧
      mostRecentRecord stNoDue "123456" 1 = some recNoDue ∧
      recNoDue.due_date = none ∧
      mostRecentRecord stNoDates "123456" 1 = some recNoDates ∧
      recNoDates.due_date = none) ∧
    ((∀ b, recNoDue.borrow_date = some b →
      calculate_late_fee_for_book "123456" 1 0 stNoDue =
        feeResultFromDue (b + 14) (recNoDue.return_date.getD 0)) ∧
     (recNoDue.borrow_date = none →
      calculate_late_fee_for_book "123456" 1 0 stNoDue =
        ⟨0, 0, "No due date"⟩)) ∧
    ((∀ b, recNoDates.borrow_date = some b →
      calculate_late_fee_for_book "123456" 1 0 stNoDates =
        feeResultFromDue (b + 14) (recNoDates.return_date.getD 0)) ∧
     (recNoDates.borrow_date = none →
      calculate_late_fee_for_book "123456" 1 0 stNoDates =
        ⟨0, 0, "No due date"⟩)) :=
  ⟨⟨by decide, rfl, rfl, rfl, rfl⟩,
    C7_due_backfill "123456" 1 0 stNoDue recNoDue (by decide) rfl rfl,
    C7_due_backfill "123456" 1 0 stNoDates recNoDates (by decide) rfl rfl⟩

/-- Claim C9: on every input and store state the fee calculator's result has
`0 ≤ fee_amount ≤ 15`, `days_overdue ≥ 0`, and `fee_amount > 0` exactly when
the status is "Overdue" (every other status carries fee 0). -/
theorem C9_result_invariants (pid : String) (bid : Nat) (now : DateTime)
    (st : Store) :
    0 ≤ (calculate_late_fee_for_book pid bid now st).fee_amount ∧
    (calculate_late_fee_for_book pid bid now st).fee_amount ≤ 15 ∧
    0 ≤ (calculate_late_fee_for_book pid bid now st).days_overdue ∧
    (0 < (calculate_late_fee_for_book pid bid now st).fee_amount ↔
      (calculate_late_fee_for_book pid bid now st).status = "Overdue") := by
  cases hpv : patronIdInvalid pid with
  | true =>
    rw [calculate_fee_invalid pid bid now st hpv]
    refine ⟨le_refl 0, by norm_num, le_refl 0, ?_⟩
    constructor
    · intro h; exact absurd h (lt_irrefl 0)
    · intro h; exact absurd h (by decide)
  | false =>
    cases hrec : mostRecentRecord st pid bid with
    | none =>
      rw [calculate_fee_norec pid bid now st hpv hrec]
      refine ⟨le_refl 0, by norm_num, le_refl 0, ?_⟩
      constructor
      · intro h; exact absurd h (lt_irrefl 0)
      · intro h; exact absurd h (by decide)
    | some row =>
      cases hdue : effectiveDueDate row with
      | none =>
        rw [calculate_fee_nodue pid bid now st row hpv hrec hdue]
        refine ⟨le_refl 0, by norm_num, le_refl 0, ?_⟩
        constructor
        · intro h; exact absurd h (lt_irrefl 0)
        · intro h; exact absurd h (by decide)
      | some due =>
        rw [calculate_fee_due pid bid now st row due hpv hrec hdue,
          feeResultFromDue_fee, feeResultFromDue_days,
          feeResultFromDue_status]
        set d0 : Int := max 0 (row.return_date.getD now - due) with hd0
        have hnn : (0 : Int) ≤ d0 := le_max_left 0 _
        refine ⟨feeFrom_nonneg d0, feeFrom_le15 d0, hnn, ?_⟩
        by_cases h0 : (0:Int) < d0
        · rw [if_pos h0]
          exact ⟨fun _ => rfl, fun _ => feeFrom_pos d0 h0⟩
        · rw [if_neg h0, feeFrom_nonpos d0 (le_of_not_lt h0)]
          constructor
          · intro h; exact absurd h (lt_irrefl 0)
          · intro h; exact absurd h (by decide)

/-- Claim C2 (the code violates it): patron 123456 holds five active borrows
in `stFiveActive`, yet `borrow_book_by_patron` succeeds — the check
`current_borrowed > 5` lets a sixth borrow through — leaving six active
records, which exceeds the limit of five that both the function's own
message and the repository's `test_borrow_patron_limit` state. -/
theorem C2_sixth_borrow_succeeds :
    get_patron_borrow_count stFiveActive "123456" = 5 ∧
    (borrow_book_by_patron "123456" 1 0 stFiveActive).1.1 = true ∧
    get_patron_borrow_count
      (borrow_book_by_patron "123456" 1 0 stFiveActive).2 "123456" = 6 :=
  ⟨rfl, rfl, rfl⟩

/-- Claim C3 counterexample: the 13-character ISBN "12345678901ab" contains
letters, yet `add_book_to_catalog` accepts it and inserts the book. -/
theorem C3_isbn_counterexample :
    (add_book_to_catalog "T" "A" "12345678901ab" 1 stEmpty).1.1 = true ∧
    (add_book_to_catalog "T" "A" "12345678901ab" 1 stEmpty).2.books =
      [⟨1, "T", "A", "12345678901ab", 1, 1⟩] :=
  ⟨rfl, rfl⟩

/-- Claim C3 as amended: `add_book_to_catalog` rejects every ISBN whose
length differs from 13, returning failure with the store untouched; digit
content of a 13-character ISBN is not checked. -/
theorem C3_isbn_length_only (title author isbn : String) (tc : Int)
    (st : Store) (h : isbn.length ≠ 13) :
    (add_book_to_catalog title author isbn tc st).1.1 = false ∧
    (add_book_to_catalog title author isbn tc st).2 = st := by
  unfold add_book_to_catalog
  split
  · exact ⟨rfl, rfl⟩
  · split
    · exact ⟨rfl, rfl⟩
    · split
      · exact ⟨rfl, rfl⟩
      · split
        · exact ⟨rfl, rfl⟩
        · split
          · exact ⟨rfl, rfl⟩
          · next hlen =>
            exact absurd (by simpa using hlen) h

/-- Witness for the amended C3 at a five-character ISBN. -/
theorem C3_isbn_length_only_witness :
    ("12345".length ≠ 13) ∧
    ((add_book_to_catalog "T" "A" "12345" 1 stEmpty).1.1 = false ∧
     (add_book_to_catalog "T" "A" "12345" 1 stEmpty).2 = stEmpty) :=
  ⟨by decide, C3_isbn_length_only "T" "A" "12345" 1 stEmpty (by decide)⟩

/-- When no active record of the patron names the book, the return handler's
`matching` list is empty. -/
theorem matching_nil (st : Store) (pid : String) (bid : Nat)
    (hno : ∀ r ∈ st.records, r.patron_id = pid → r.return_date = none →
      r.book_id ≠ bid) :
    (get_patron_borrowed_books st pid).filter
      (fun rb => rb.1.book_id == bid) = [] := by
  apply List.filter_eq_nil_iff.mpr
  intro rb hrb
  have hall : ∃ a, (a ∈ st.records ∧ a.patron_id = pid ∧
      a.return_date = none) ∧
      ∃ b, List.find? (fun bk => bk.id == a.book_id) st.books = some b ∧
        (a, b) = rb := by
    simpa [get_patron_borrowed_books] using hrb
  obtain ⟨r, ⟨hrmem, hpid, hret⟩, b, _, hba⟩ := hall
  have hne : rb.1.book_id ≠ bid := by
    rw [← hba]
    exact hno r hrmem hpid hret
  simp [hne]

/-- Claim C4: for a valid patron and an existing book with no active borrow
record matching the pair, `return_book_by_patron` fails with a message
containing "not borrowed" and leaves the store — every book's
`available_copies` and every borrow record — unchanged; in particular an
already-returned book is never credited twice. -/
theorem C4_return_not_borrowed (pid : String) (bid : Nat) (now : DateTime)
    (st : Store) (book : Book)
    (hv : patronIdInvalid pid = false)
    (hb : get_book_by_id st bid = some book)
    (hno : ∀ r ∈ st.records, r.patron_id = pid → r.return_date = none →
      r.book_id ≠ bid) :
    return_book_by_patron pid bid now st =
      ((false, "Book not borrowed by patron"), st) ∧
    containsSub "not borrowed".data "Book not borrowed by patron".data =
      true := by
  refine ⟨?_, by decide⟩
  have hm := matching_nil st pid bid hno
  simp [return_book_by_patron, hv, hb, hm]

/-- Witness for C4: returning a book whose only record is already returned
fails without touching the store. -/
theorem C4_return_not_borrowed_witness :
    (patronIdInvalid "123456" = false ∧
     get_book_by_id stReturned 1 = some bookDune ∧
     (∀ r ∈ stReturned.records, r.patron_id = "123456" →
       r.return_date = none → r.book_id ≠ 1)) ∧
    (return_book_by_patron "123456" 1 30 stReturned =
      ((false, "Book not borrowed by patron"), stReturned) ∧
     containsSub "not borrowed".data "Book not borrowed by patron".data =
       true) :=
  ⟨⟨by decide, rfl, by decide⟩,
    C4_return_not_borrowed "123456" 1 30 stReturned bookDune (by decide) rfl
      (by decide)⟩

/-- Claim C5: when every gateway invocation raises, each orchestrator calls
the gateway at most once, the exception never escapes (the functions return
an ordinary result pair), and whenever the gateway was actually reached the
result is a failure wrapping the exception in a processing-error message. -/
theorem C5_gateway_exception (pid : String) (bid : Nat) (now : DateTime)
    (st : Store) (gw : PaymentGateway) (e : String)
    (txn : String) (amount : Rat)
    (hp : ∀ a b c, gw.process_payment a b c = .error e)
    (hr : ∀ a b, gw.refund_payment a b = .error e) :
    (pay_late_fees pid bid gw now st).2 ≤ 1 ∧
    ((pay_late_fees pid bid gw now st).2 = 1 →
      (pay_late_fees pid bid gw now st).1 =
        (false, "Payment processing error: " ++ e, none)) ∧
    (refund_late_fee_payment txn amount gw).2 ≤ 1 ∧
    ((refund_late_fee_payment txn amount gw).2 = 1 →
      (refund_late_fee_payment txn amount gw).1 =
        (false, "Refund processing error: " ++ e)) := by
  have hpay : (pay_late_fees pid bid gw now st).2 ≤ 1 ∧
      ((pay_late_fees pid bid gw now st).2 = 1 →
        (pay_late_fees pid bid gw now st).1 =
          (false, "Payment processing error: " ++ e, none)) := by
    simp only [pay_late_fees, hp]
    split
    · exact ⟨Nat.zero_le 1, fun h => absurd h (by decide)⟩
    · split
      · exact ⟨Nat.zero_le 1, fun h => absurd h (by decide)⟩
      · split
        · exact ⟨Nat.zero_le 1, fun h => absurd h (by decide)⟩
        · exact ⟨le_refl 1, fun _ => rfl⟩
  have href : (refund_late_fee_payment txn amount gw).2 ≤ 1 ∧
      ((refund_late_fee_payment txn amount gw).2 = 1 →
        (refund_late_fee_payment txn amount gw).1 =
          (false, "Refund processing error: " ++ e)) := by
    simp only [refund_late_fee_payment, hr]
    split
    · exact ⟨Nat.zero_le 1, fun h => absurd h (by decide)⟩
    · split
      · exact ⟨Nat.zero_le 1, fun h => absurd h (by decide)⟩
      · split
        · exact ⟨Nat.zero_le 1, fun h => absurd h (by decide)⟩
        · exact ⟨le_refl 1, fun _ => rfl⟩
  exact ⟨hpay.1, hpay.2, href.1, href.2⟩

/-- Witness for C5 with the always-raising gateway `gwRaises`. -/
theorem C5_gateway_exception_witness :
    ((∀ a b c, gwRaises.process_payment a b c = .error "boom") ∧
     (∀ a b, gwRaises.refund_payment a b = .error "boom")) ∧
    ((pay_late_fees "123456" 1 gwRaises 0 stTenLate).2 ≤ 1 ∧
     ((pay_late_fees "123456" 1 gwRaises 0 stTenLate).2 = 1 →
       (pay_late_fees "123456" 1 gwRaises 0 stTenLate).1 =
         (false, "Payment processing error: " ++ "boom", none)) ∧
     (refund_late_fee_payment "txn_1" 1 gwRaises).2 ≤ 1 ∧
     ((refund_late_fee_payment "txn_1" 1 gwRaises).2 = 1 →
       (refund_late_fee_payment "txn_1" 1 gwRaises).1 =
         (false, "Refund processing error: " ++ "boom"))) :=
  ⟨⟨fun _ _ _ => rfl, fun _ _ => rfl⟩,
    C5_gateway_exception "123456" 1 0 stTenLate gwRaises "boom" "txn_1" 1
      (fun _ _ _ => rfl) (fun _ _ => rfl)⟩

/-- Claim C6: with a valid patron id and a computed fee ≤ 0, `pay_late_fees`
fails with a message containing "No late fees", a null transaction
identifier, and zero gateway invocations. -/
theorem C6_no_fee_no_gateway (pid : String) (bid : Nat) (gw : PaymentGateway)
    (now : DateTime) (st : Store)
    (hv : patronIdInvalid pid = false)
    (hfee : (calculate_late_fee_for_book pid bid now st).fee_amount ≤ 0) :
    pay_late_fees pid bid gw now st =
      ((false, "No late fees to pay for this book.", none), 0) ∧
    containsSub "No late fees".data
      "No late fees to pay for this book.".data = true := by
  refine ⟨?_, by decide⟩
  simp [pay_late_fees, hv, hfee]

/-- Witness for C6: no borrow record, hence a zero fee. -/
theorem C6_no_fee_no_gateway_witness :
    (patronIdInvalid "123456" = false ∧
     (calculate_late_fee_for_book "123456" 1 0 stEmpty).fee_amount ≤ 0) ∧
    (pay_late_fees "123456" 1 gwRaises 0 stEmpty =
      ((false, "No late fees to pay for this book.", none), 0) ∧
     containsSub "No late fees".data
       "No late fees to pay for this book.".data = true) :=
  ⟨⟨by decide, le_of_eq rfl⟩,
    C6_no_fee_no_gateway "123456" 1 gwRaises 0 stEmpty (by decide)
      (le_of_eq rfl)⟩

/-- Claim C8: a null or blank-after-trimming term yields the empty result
with zero book-store calls; otherwise type "isbn" selects exactly the books
whose ISBN equals the trimmed term, "title" and "author" select exactly the
books whose respective field contains the trimmed term case-insensitively,
and any other type selects the books whose title or author contains it —
each as a `filter` of the store's list, preserving its order. -/
theorem C8_search (ty : String) (st : Store) :
    (search_books_in_catalog none ty st = ([], 0)) ∧
    (∀ t, pythonStrip t = "" →
      search_books_in_catalog (some t) ty st = ([], 0)) ∧
    (∀ t, pythonStrip t ≠ "" →
      ((ty = "isbn" → search_books_in_catalog (some t) ty st =
        (st.books.filter (fun b => b.isbn == pythonStrip t), 1)) ∧
       (ty = "title" → search_books_in_catalog (some t) ty st =
        (st.books.filter (fun b => containsSub
          (pythonLower (pythonStrip t)).data (pythonLower b.title).data),
          1)) ∧
       (ty = "author" → search_books_in_catalog (some t) ty st =
        (st.books.filter (fun b => containsSub
          (pythonLower (pythonStrip t)).data (pythonLower b.author).data),
          1)) ∧
       (ty ≠ "isbn" → ty ≠ "title" → ty ≠ "author" →
        search_books_in_catalog (some t) ty st =
        (st.books.filter (fun b =>
          containsSub (pythonLower (pythonStrip t)).data
            (pythonLower b.title).data ||
          containsSub (pythonLower (pythonStrip t)).data
            (pythonLower b.author).data), 1)))) := by
  refine ⟨rfl, ?_, ?_⟩
  · intro t ht
    simp [search_books_in_catalog, ht]
    intro h
    exact absurd h (by decide)
  · intro t ht
    have hne : (pythonStrip t).isEmpty = false := by
      cases h : (pythonStrip t).isEmpty
      · rfl
      · exact absurd ((String.isEmpty_iff _).mp h) ht
    refine ⟨?_, ?_, ?_, ?_⟩
    · intro hty
      subst hty
      simp [search_books_in_catalog, hne]
    · intro hty
      subst hty
      simp [search_books_in_catalog, hne]
    · intro hty
      subst hty
      simp [search_books_in_catalog, hne]
    · intro h1 h2 h3
      have b1 : (ty == "isbn") = false := beq_eq_false_iff_ne.mpr h1
      have b2 : (ty == "title") = false := beq_eq_false_iff_ne.mpr h2
      have b3 : (ty == "author") = false := beq_eq_false_iff_ne.mpr h3
      simp [search_books_in_catalog, hne, b1, b2, b3]

/-- Witness for C8 over the two-book catalog. -/
theorem C8_search_witness :
    search_books_in_catalog none "title" stTwoBooks = ([], 0) ∧
    search_books_in_catalog (some "   ") "author" stTwoBooks = ([], 0) ∧
    search_books_in_catalog (some " DUNE ") "title" stTwoBooks =
      ([bookDune], 1) ∧
    search_books_in_catalog (some "1234567890123") "isbn" stTwoBooks =
      ([bookDune], 1) ∧
    search_books_in_catalog (some "niggle") "any" stTwoBooks =
      ([bookLeaf], 1) := by
  refine ⟨(C8_search "title" stTwoBooks).1,
    (C8_search "author" stTwoBooks).2.1 "   " (by decide),
    ?_, ?_, ?_⟩
  · exact (((C8_search "title" stTwoBooks).2.2 " DUNE "
      (by decide)).2.1 rfl).trans (by decide)
  · exact (((C8_search "isbn" stTwoBooks).2.2 "1234567890123"
      (by decide)).1 rfl).trans (by decide)
  · exact (((C8_search "any" stTwoBooks).2.2 "niggle"
      (by decide)).2.2.2 (by decide) (by decide) (by decide)).trans
      (by decide)

/-- Claim C10: every borrow-history entry of the status report carries
exactly the keys record_id, book_id, title, author, borrow_date — no
due_date or return_date key — and the value stored under "borrow_date" is
the corresponding record's return date, because the dict literal writes the
key borrow_date three times and the last write (the return date) wins. -/
theorem C10_history_keys (pid : String) (now : DateTime) (st : Store)
    (rep : PatronReport)
    (hrep : get_patron_status_report pid now st = some rep) :
    ∀ entry ∈ rep.borrow_history,
      entry.map Prod.fst =
        ["record_id", "book_id", "title", "author", "borrow_date"] ∧
      dictGet entry "due_date" = none ∧
      dictGet entry "return_date" = none ∧
      ∃ r b, (r, b) ∈ returnedHistoryForPatron st pid ∧
        dictGet entry "borrow_date" = some (.date r.return_date) := by
  intro entry hentry
  cases hpv : patronIdInvalid pid with
  | true => simp [get_patron_status_report, hpv] at hrep
  | false =>
    simp only [get_patron_status_report, hpv, Bool.false_eq_true, if_false,
      Option.some.injEq] at hrep
    have hb : rep.borrow_history = (returnedHistoryForPatron st pid).map
        (fun rb => historyEntry rb.1 rb.2) := by
      rw [← hrep]
    rw [hb] at hentry
    obtain ⟨rb, hrb, hent⟩ := List.mem_map.mp hentry
    refine ⟨?_, ?_, ?_, rb.1, rb.2, hrb, ?_⟩ <;> rw [← hent] <;> rfl

/-- Witness for C10 on a store with one returned record. -/
theorem C10_history_keys_witness :
    (get_patron_status_report "123456" 0 stReturned = some repReturned) ∧
    (∀ entry ∈ repReturned.borrow_history,
      entry.map Prod.fst =
        ["record_id", "book_id", "title", "author", "borrow_date"] ∧
      dictGet entry "due_date" = none ∧
      dictGet entry "return_date" = none ∧
      ∃ r b, (r, b) ∈ returnedHistoryForPatron stReturned "123456" ∧
        dictGet entry "borrow_date" = some (.date r.return_date)) :=
  ⟨rfl, C10_history_keys "123456" 0 stReturned repReturned rfl⟩

end LibSys
